import Mathlib

set_option linter.unusedVariables false

/-!
Verification of the evaluation-orchestration pipeline and bounded history
store of the cv-ranker frontend (`gradio_app/`).

The Python sources are shallowly embedded:

* `db_manager.py` — the SQLite-backed search-history store becomes a pure
  `Store` (a list of rows in rowid/insertion order plus the AUTOINCREMENT
  counter).  The SQL `ORDER BY timestamp` clauses are modelled with
  `List.insertionSort` over the key (timestamp, id): SQLite scans the table
  in rowid order, so rows with equal timestamps surface in id order.
* `app_with_progress.py` — validators, `prepare_payload`,
  `call_ranking_api`, `call_flowise_evaluation`, `execute_ranking` and the
  submit wiring (`validate_and_submit` chained into `execute_ranking`).
* `app_gdpr_compliant.py` — `evaluate_with_flowise_via_be` and the
  `rank_cv_with_social_and_flowise` pipeline.

Network calls are parametrised by an `HttpOutcome` oracle (the observable
outcome of one `requests.post`); the pipelines additionally report which
collaborators they invoked (`scoringCalled`, `flowiseCalled`, `saveCalled`)
and the exact arguments handed to `save_search_result`.  Python floats that
only ever hold exactly-representable values (scores, `num_links / 4`) are
modelled as rationals.  Display-only markup (the large Markdown/HTML
templates) is rendered by simplified formatters; no theorem depends on it.
-/

namespace CvRanker

/-- `MAX_SEARCH_HISTORY` (db_manager.py, default 5). -/
def MAX_RECORDS : Nat := 5

/-- The dict returned by `call_flowise_evaluation`
(app_with_progress.py): the parsed 200 response body, or one of the four
error dicts `\x7b'error': …, 'success': False, …\x7d` built in its
branches. -/
inductive FlowiseClientResult where
  | body (b : List (String × String))
  | errorNoName
  | errorStatus (code : Nat)
  | errorTimeout
  | errorExn (msg : String)
deriving DecidableEq, Repr

/-- The JSON dict values this repository actually passes as
`flowise_response` to `save_search_result`:
`app_gdpr_compliant.py` passes `\x7b"presence_score": s\x7d`, and
`app_with_progress.py` passes the dict returned by
`call_flowise_evaluation`.  `emptyDict` is Python's `\x7b\x7d`. -/
inductive FlowiseJson where
  | emptyDict
  | presenceScore (score : ℚ)
  | clientResult (r : FlowiseClientResult)
deriving DecidableEq, Repr

/-- Python truthiness of the dict (`if flowise_response` in
`save_search_result`): an empty dict is falsy, every other value passed in
this repository is a non-empty dict except a 200 body that parsed to
`\x7b\x7d`. -/
def FlowiseJson.truthy : FlowiseJson → Bool
  | .emptyDict => false
  | .presenceScore _ => true
  | .clientResult (.body b) => !b.isEmpty
  | .clientResult _ => true

/-- One row of the `search_history` table (db_manager.py `init_database`).
`id` is the AUTOINCREMENT rowid, `timestamp` the value of
`CURRENT_TIMESTAMP` at insert time (modelled as a `Nat` clock reading).
The `social_profiles` column holds the serialized string mapping and
`flowise_response` the serialized dict or SQL NULL (`none`). -/
structure SearchRecord where
  id : Nat
  timestamp : Nat
  candidate_name : String
  job_title : String
  match_score : ℚ
  recommendation : String
  social_profiles : List (String × String)
  flowise_response : Option FlowiseJson
  notes : String
deriving DecidableEq, Repr

/-- The `search_history` table: rows in rowid (= insertion) order plus the
AUTOINCREMENT counter for the next id (SQLite AUTOINCREMENT never reuses
ids, even after deletes). -/
structure Store where
  records : List SearchRecord
  nextId : Nat
deriving DecidableEq, Repr

/-- A freshly created database (`init_database`): no rows, ids start at 1. -/
def emptyStore : Store := ⟨[], 1⟩

/-- `ORDER BY timestamp ASC` comparison.  SQLite orders equal timestamps in
rowid order (the table is scanned in rowid order), hence the id
tie-break. -/
def tsKeyLe (a b : SearchRecord) : Prop :=
  a.timestamp < b.timestamp ∨ (a.timestamp = b.timestamp ∧ a.id ≤ b.id)

instance : DecidableRel tsKeyLe := fun a b => by unfold tsKeyLe; infer_instance

instance : IsTotal SearchRecord tsKeyLe where
  total a b := by unfold tsKeyLe; omega

instance : IsTrans SearchRecord tsKeyLe where
  trans a b c hab hbc := by unfold tsKeyLe at *; omega

/-- Result set of `SELECT … ORDER BY timestamp ASC`. -/
def orderByTimestampAsc (l : List SearchRecord) : List SearchRecord :=
  l.insertionSort tsKeyLe

/-- Result set of `SELECT … ORDER BY timestamp DESC` (the reverse of the
ascending order). -/
def orderByTimestampDesc (l : List SearchRecord) : List SearchRecord :=
  (l.insertionSort tsKeyLe).reverse

/-- `json.dumps(flowise_response) if flowise_response else None`
(db_manager.py `save_search_result`): `None` and the empty dict are stored
as SQL NULL, anything truthy is stored serialized. -/
def storedFlowise : Option FlowiseJson → Option FlowiseJson
  | none => none
  | some j => if j.truthy then some j else none

/-- The arguments of one `save_search_result` call. -/
structure SaveArgs where
  candidate_name : String
  job_title : String
  match_score : ℚ
  recommendation : String
  social_profiles : List (String × String)
  flowise_response : Option FlowiseJson
  notes : String
deriving DecidableEq, Repr

/-- The row inserted by `save_search_result`: rowid from AUTOINCREMENT,
timestamp from `CURRENT_TIMESTAMP` (the clock reading `now`). -/
def mkRecord (s : Store) (now : Nat) (a : SaveArgs) : SearchRecord :=
  { id := s.nextId
    timestamp := now
    candidate_name := a.candidate_name
    job_title := a.job_title
    match_score := a.match_score
    recommendation := a.recommendation
    social_profiles := a.social_profiles
    flowise_response := storedFlowise a.flowise_response
    notes := a.notes }

/-- db_manager.py `save_search_result`: INSERT the new row, then if the
row count exceeds `MAX_RECORDS` DELETE the rows whose ids are in
`SELECT id … ORDER BY timestamp ASC LIMIT (count - MAX_RECORDS)`.
Returns the new store and `cursor.lastrowid`. -/
def save_search_result (s : Store) (now : Nat) (a : SaveArgs) : Store × Nat :=
  let r := mkRecord s now a
  let rs := s.records ++ [r]
  let total := rs.length
  let rs' :=
    if total > MAX_RECORDS then
      let doomed := ((orderByTimestampAsc rs).take (total - MAX_RECORDS)).map (·.id)
      rs.filter (fun x => !doomed.contains x.id)
    else rs
  (⟨rs', s.nextId + 1⟩, r.id)

/-- db_manager.py `get_search_history`:
`SELECT … ORDER BY timestamp DESC LIMIT MAX_RECORDS` (the SELECT omits the
`flowise_response` column; the full record is kept here since no caller
reads that field from a history row). -/
def get_search_history (s : Store) : List SearchRecord :=
  (orderByTimestampDesc s.records).take MAX_RECORDS

/-- db_manager.py `get_search_result_by_id`: `SELECT … WHERE id = ?`,
`None` when no row matches. -/
def get_search_result_by_id (s : Store) (record_id : Nat) : Option SearchRecord :=
  s.records.find? (fun r => r.id == record_id)

/-- db_manager.py `clear_all_search_history`: `DELETE FROM search_history`
(AUTOINCREMENT state survives). -/
def clear_all_search_history (s : Store) : Store :=
  ⟨[], s.nextId⟩

/-- db_manager.py `delete_search_record`:
`DELETE FROM search_history WHERE id = ?` and return `True`.  The
`except` branch (I/O failure) is the only way to get `False`; a DELETE
matching zero rows is not an error, so the function returns `True` whether
or not the id existed. -/
def delete_search_record (s : Store) (record_id : Nat) : Store × Bool :=
  (⟨s.records.filter (fun r => r.id ≠ record_id), s.nextId⟩, true)

/-- Rows in rowid order with strictly increasing ids and non-decreasing
timestamps (ids come from AUTOINCREMENT, timestamps from a monotone
clock), all ids below the AUTOINCREMENT counter.  Every store reachable
from `emptyStore` through `save`/`delete`/`clear` satisfies this. -/
def Store.WF (s : Store) : Prop :=
  s.records.Pairwise (fun a b => a.id < b.id ∧ a.timestamp ≤ b.timestamp) ∧
  ∀ r ∈ s.records, r.id < s.nextId

instance (s : Store) : Decidable s.WF := by unfold Store.WF; infer_instance

/-- Python `str.strip()`: remove leading and trailing whitespace
(equivalent to `String.trim` on ASCII input, defined over the character
list so that it evaluates inside the kernel). -/
def pyStrip (s : String) : String :=
  ⟨((s.data.dropWhile Char.isWhitespace).reverse.dropWhile Char.isWhitespace).reverse⟩

/-- Python string slicing `s[:n]` (defined over the character list). -/
def pyTake (s : String) (n : Nat) : String :=
  ⟨s.data.take n⟩

/-! ## Validators (app_with_progress.py) -/

/-- Character class `[a-zA-Z0-9._%+-]` of the email regex local part. -/
def emailLocalChar (c : Char) : Bool :=
  c.isAlpha || c.isDigit || c = '.' || c = '_' || c = '%' || c = '+' || c = '-'

/-- Character class `[a-zA-Z0-9.-]` of the email regex domain part. -/
def emailDomainChar (c : Char) : Bool :=
  c.isAlpha || c.isDigit || c = '.' || c = '-'

/-- `re.match` of `[a-zA-Z0-9.-]+\.[a-zA-Z]\x7b2,\x7d$` against the text
after the `@`: some split at a dot has a non-empty domain-char prefix and
an all-alphabetic suffix of length at least 2. -/
def emailDomainMatch (cs : List Char) : Bool :=
  (List.range cs.length).any (fun i =>
    cs[i]? = some '.' ∧ 0 < i ∧ (cs.take i).all emailDomainChar ∧
      (cs.drop (i + 1)).all Char.isAlpha ∧ 2 ≤ cs.length - (i + 1))

/-- app_with_progress.py `validate_email`: empty is accepted (optional
field), otherwise the anchored regex
`^[a-zA-Z0-9._%+-]+@[a-zA-Z0-9.-]+\.[a-zA-Z]\x7b2,\x7d$` must match.
Both character classes exclude `@`, so the string splits at its unique
`@`. -/
def validate_email (email : String) : Bool × String :=
  if email = "" then (true, "")
  else
    let cs := email.toList
    let localPart := cs.takeWhile (fun c => c ≠ '@')
    let rest := cs.dropWhile (fun c => c ≠ '@')
    match rest with
    | '@' :: domainPart =>
        if !localPart.isEmpty && localPart.all emailLocalChar &&
            emailDomainMatch domainPart then
          (true, "")
        else (false, "Invalid email format")
    | _ => (false, "Invalid email format")

/-- The regex class `[\s\-\(\)\+]` removed by `validate_phone`
(`\s` over ASCII input). -/
def phoneSeparator (c : Char) : Bool :=
  c = ' ' || c = '\t' || c = '\n' || c = '\r' ||
  c = Char.ofNat 11 || c = Char.ofNat 12 || c = '-' || c = '(' || c = ')' || c = '+'

/-- `re.sub(r'[\s\-\(\)\+]', '', phone)`. -/
def cleanPhone (phone : String) : List Char :=
  phone.toList.filter (fun c => !phoneSeparator c)

/-- Python `str.isdigit` (ASCII): non-empty and all decimal digits. -/
def pyIsDigit (l : List Char) : Bool :=
  !l.isEmpty && l.all Char.isDigit

/-- app_with_progress.py `validate_phone`: empty is accepted (optional
field); otherwise the string with separators removed must be 7+ digits. -/
def validate_phone (phone : String) : Bool × String :=
  if phone = "" then (true, "")
  else if decide (7 ≤ (cleanPhone phone).length) && pyIsDigit (cleanPhone phone) then
    (true, "")
  else (false, "Invalid phone format (must be 7+ digits)")

/-- app_with_progress.py `validate_cv_jd`: both texts must strip to at
least 20 characters. -/
def validate_cv_jd (cv_text jd_text : String) : Bool × String :=
  if cv_text = "" || (pyStrip cv_text).length < 20 then
    (false, "CV must be at least 20 characters")
  else if jd_text = "" || (pyStrip jd_text).length < 20 then
    (false, "Job Description must be at least 20 characters")
  else (true, "")

/-- app_with_progress.py `validate_candidate_name`: the name must strip to
at least 2 characters. -/
def validate_candidate_name (name : String) : Bool × String :=
  if name = "" || (pyStrip name).length < 2 then
    (false, "Candidate name is required (at least 2 characters)")
  else (true, "")

/-! ## PayloadBuilder (app_with_progress.py `prepare_payload`) -/

/-- A value of the `social_media_profiles` dict built by
`prepare_payload`: the five provider keys hold lists of URLs, the derived
`presence_score` holds a float, `total_links` an int. -/
inductive SPVal where
  | links (urls : List String)
  | num (q : ℚ)
  | int (n : Nat)
deriving DecidableEq, Repr

/-- Dict lookup in an association list (first binding wins, as in a
Python dict with distinct keys). -/
def spLookup (sp : List (String × SPVal)) (k : String) : Option SPVal :=
  (sp.find? (fun kv => kv.1 == k)).map (·.2)

/-- `social_profiles.get(k, [])` when the key holds a list of URLs. -/
def spLinks (sp : List (String × SPVal)) (k : String) : List String :=
  match spLookup sp k with
  | some (.links urls) => urls
  | _ => []

/-- `num_links`: how many of the five provider entries are non-empty
lists, i.e. how many link fields were provided. -/
def numLinks (github_url linkedin_url portfolio_url facebook_url other_social : String) : Nat :=
  (if github_url ≠ "" then 1 else 0) + (if linkedin_url ≠ "" then 1 else 0) +
  (if portfolio_url ≠ "" then 1 else 0) + (if facebook_url ≠ "" then 1 else 0) +
  (if other_social ≠ "" then 1 else 0)

/-- The `social_media_profiles` dict in insertion order: the five provider
keys (`[url]` when provided, `[]` otherwise), then the derived
`presence_score = min(num_links / 4, 1.0)` and
`total_links` (the summed lengths of the five lists). -/
def build_social_profiles (github_url linkedin_url portfolio_url facebook_url other_social : String) :
    List (String × SPVal) :=
  let n := numLinks github_url linkedin_url portfolio_url facebook_url other_social
  [("github", .links (if github_url ≠ "" then [github_url] else [])),
   ("linkedin", .links (if linkedin_url ≠ "" then [linkedin_url] else [])),
   ("portfolio", .links (if portfolio_url ≠ "" then [portfolio_url] else [])),
   ("facebook", .links (if facebook_url ≠ "" then [facebook_url] else [])),
   ("other", .links (if other_social ≠ "" then [other_social] else [])),
   ("presence_score", .num (min ((n : ℚ) / 4) 1)),
   ("total_links", .int n)]

/-- The payload dict returned by `prepare_payload`. -/
structure PreparedPayload where
  jd_title : String
  jd_description : String
  candidate_id : String
  candidate_name : String
  candidate_email : String
  candidate_phone : String
  cv_text : String
  include_shap : Bool
  include_social_weighting : Bool
  social_media_profiles : List (String × SPVal)
deriving DecidableEq, Repr

/-- app_with_progress.py `prepare_payload`: builds the scoring-request
payload; empty id/name fall back to `'auto'`/`'Unknown'`, social
weighting is requested only when at least one link was provided. -/
def prepare_payload (jd_text cv_text candidate_name candidate_id candidate_email candidate_phone
    github_url linkedin_url portfolio_url facebook_url other_social : String) : PreparedPayload :=
  { jd_title := "Candidate Evaluation"
    jd_description := jd_text
    candidate_id := if candidate_id ≠ "" then candidate_id else "auto"
    candidate_name := if candidate_name ≠ "" then candidate_name else "Unknown"
    candidate_email := candidate_email
    candidate_phone := candidate_phone
    cv_text := cv_text
    include_shap := true
    include_social_weighting :=
      0 < numLinks github_url linkedin_url portfolio_url facebook_url other_social
    social_media_profiles :=
      build_social_profiles github_url linkedin_url portfolio_url facebook_url other_social }

/-! ## Network clients (app_with_progress.py) -/

/-- The observable outcome of one `requests.post(...)`: a response with a
status code and parsed JSON body, a `requests.Timeout`, or any other
exception from the transport layer. -/
inductive HttpOutcome (β : Type) where
  | ok (status : Nat) (body : β)
  | timeout
  | exn (msg : String)
deriving DecidableEq, Repr

/-- The fields of a parsed `/rank/enhanced` 200 body that the frontend
reads (each through `.get`, hence `Option`); `sw_recommendation` is
`response['social_weighting']['recommendation']`.  The skill/shap parts of
the body feed display templates only and are elided. -/
structure RankBody where
  jd_title : Option String
  match_score : Option ℚ
  recommendation : Option String
  sw_recommendation : Option String
  social_profiles : List (String × String)
deriving DecidableEq, Repr

/-- The dict returned by `call_ranking_api`: the parsed 200 body, or an
error dict carrying `'error'` (and the status code for HTTP errors). -/
inductive RankResponse where
  | body (b : RankBody)
  | errorDict (msg : String) (status_code : Option Nat)
deriving DecidableEq, Repr

/-- `'error' in response` (the parsed 200 body carries no `'error'`
key). -/
def RankResponse.hasError : RankResponse → Bool
  | .body _ => false
  | .errorDict _ _ => true

/-- app_with_progress.py `call_ranking_api`: POST to the ranking API with
a 300s timeout; 200 yields the parsed body, any other status or exception
yields an error dict. -/
def call_ranking_api (o : HttpOutcome RankBody) : RankResponse :=
  match o with
  | .ok code b =>
      if code = 200 then .body b
      else .errorDict ("API Error: " ++ toString code) (some code)
  | .timeout => .errorDict "Request timeout (5 minutes exceeded)" none
  | .exn e => .errorDict ("Error calling API: " ++ e) none

/-- Does the `call_flowise_evaluation` result carry an `'error'` key
(every branch but a clean 200 body does)? -/
def FlowiseClientResult.hasErrorKey : FlowiseClientResult → Bool
  | .body b => b.any (fun kv => kv.1 == "error")
  | _ => true

/-- app_with_progress.py `call_flowise_evaluation`: refuses a blank
candidate name without touching the network, then POSTs to the
`/flowise/evaluate-candidate` endpoint with a 300s timeout; 200 yields
the parsed body, any other status / timeout / exception yields an error
dict (the URL and contact fields are forwarded in the request payload and
do not influence the client's control flow). -/
def call_flowise_evaluation (candidate_name candidate_email candidate_phone github_url
    linkedin_url portfolio_url facebook_url : String) (match_score : ℚ)
    (o : HttpOutcome (List (String × String))) : FlowiseClientResult :=
  if candidate_name = "" || pyStrip candidate_name = "" then .errorNoName
  else
    match o with
    | .ok code b => if code = 200 then .body b else .errorStatus code
    | .timeout => .errorTimeout
    | .exn e => .errorExn ("Error calling Flowise: " ++ e)

/-! ## The progress-app pipeline (app_with_progress.py `execute_ranking`
and the submit wiring) -/

/-- Python percent formatting `f"\x7bx:.1%\x7d"`: the value times 100,
one decimal place, then `%`.  (Half-way cases of the decimal rounding are
immaterial to every value this development formats.) -/
def formatPct1 (q : ℚ) : String :=
  let m : ℤ := round (q * 1000)
  let sign := if m < 0 then "-" else ""
  let n := m.natAbs
  sign ++ toString (n / 10) ++ "." ++ toString (n % 10) ++ "%"

/-- Python truthiness of an optional string (`if response.get(k):`). -/
def truthyStr : Option String → Option String
  | some "" => none
  | o => o

/-- `response.get('match_score', 0)`. -/
def RankResponse.matchScore : RankResponse → ℚ
  | .body b => b.match_score.getD 0
  | .errorDict _ _ => 0

/-- `response.get('jd_title', 'Job Position')`. -/
def RankResponse.jdTitle : RankResponse → String
  | .body b => b.jd_title.getD "Job Position"
  | .errorDict _ _ => "Job Position"

/-- `response.get('social_profiles', \x7b\x7d)`. -/
def RankResponse.socialProfiles : RankResponse → List (String × String)
  | .body b => b.social_profiles
  | .errorDict _ _ => []

/-- The recommendation text chosen by `execute_ranking` before saving:
`social_weighting.recommendation`, else `recommendation`, else
`f"Match score: \x7bmatch_score:.1%\x7d"`. -/
def deriveRecommendation (resp : RankResponse) : String :=
  match resp with
  | .body b =>
      match truthyStr b.sw_recommendation with
      | some r => r
      | none =>
          match truthyStr b.recommendation with
          | some r => r
          | none => "Match score: " ++ formatPct1 (b.match_score.getD 0)
  | .errorDict _ _ => "Match score: " ++ formatPct1 0

/-- `format_results` success markup (display only; the real template
interpolates the same fields into a longer Markdown skeleton). -/
def formatBaseline (b : RankBody) : String :=
  "### BASELINE RANKING RESULTS Match Score: " ++ toString (b.match_score.getD 0)

/-- app_with_progress.py `format_results`: an error response renders an
error banner and empty panels, a success response renders the three
result panels (markup simplified). -/
def format_results (resp : RankResponse) : String × String × String :=
  match resp with
  | .errorDict msg _ => ("❌ Error: " ++ msg, "", "")
  | .body b => (formatBaseline b, "social panel", "delta panel")

/-- `(social_profiles.get(k, []) or [''])[0] or ''` — the first URL of the
provider's list, or the empty string. -/
def firstLinkOr (urls : List String) : String :=
  urls.headD ""

/-- Everything observable about one `execute_ranking` call: the returned
5-tuple pieces, which collaborators were invoked, the arguments passed to
`save_search_result`, and the store afterwards.  `response = none` models
the empty dict returned on the no-payload path; `flowise = none` means
the Flowise step was skipped (its local dict stayed `\x7b\x7d`). -/
structure ProgressRun where
  baseline : String
  social : String
  delta : String
  response : Option RankResponse
  flowise : Option FlowiseClientResult
  scoringCalled : Bool
  flowiseCalled : Bool
  saveCalled : Bool
  savedArgs : Option SaveArgs
  store : Store
deriving Repr

/-- app_with_progress.py `execute_ranking`: an empty payload short-circuits
with an error display and no calls; otherwise the ranking API is called,
Flowise is called iff the ranking response has no `'error'` and the
payload's candidate name is truthy, and `save_search_result` is then
invoked unconditionally (its enclosing `try` only guards against the save
itself raising). -/
def execute_ranking (payload : Option PreparedPayload) (rankO : HttpOutcome RankBody)
    (flowO : HttpOutcome (List (String × String))) (s : Store) (now : Nat) : ProgressRun :=
  match payload with
  | none =>
      { baseline := "Error: No payload", social := "", delta := "", response := none
        flowise := none, scoringCalled := false, flowiseCalled := false
        saveCalled := false, savedArgs := none, store := s }
  | some p =>
      let resp := call_ranking_api rankO
      let fmt := format_results resp
      let fr : Option FlowiseClientResult :=
        if !resp.hasError && p.candidate_name ≠ "" then
          some (call_flowise_evaluation p.candidate_name p.candidate_email p.candidate_phone
            (firstLinkOr (spLinks p.social_media_profiles "github"))
            (firstLinkOr (spLinks p.social_media_profiles "linkedin"))
            (firstLinkOr (spLinks p.social_media_profiles "portfolio"))
            (firstLinkOr (spLinks p.social_media_profiles "facebook"))
            resp.matchScore flowO)
        else none
      let args : SaveArgs :=
        { candidate_name := p.candidate_name
          job_title := resp.jdTitle
          match_score := resp.matchScore
          recommendation := pyTake (deriveRecommendation resp) 200
          social_profiles := resp.socialProfiles
          flowise_response := some (match fr with
            | some r => .clientResult r
            | none => .emptyDict)
          notes := "" }
      let s' := (save_search_result s now args).1
      { baseline := fmt.1, social := fmt.2.1, delta := fmt.2.2
        response := some resp, flowise := fr, scoringCalled := true
        flowiseCalled := fr.isSome, saveCalled := true
        savedArgs := some args, store := s' }

/-- The form fields read by `validate_and_submit`. -/
structure FormInputs where
  cand_name : String
  cand_id : String
  cand_email : String
  cand_phone : String
  jd_t : String
  cv_t : String
  gh : String
  li : String
  port : String
  fb : String
  other : String
deriving DecidableEq, Repr

/-- app_with_progress.py `validate_and_submit`: runs the four validators
in order; the first failure returns its message with an empty payload
(`none` models the `\x7b\x7d` state value), success returns the prepared
payload.  Components: (baseline reset, status message, payload, status
text). -/
def validate_and_submit (f : FormInputs) : String × String × Option PreparedPayload × String :=
  let vname := validate_candidate_name f.cand_name
  if !vname.1 then ("", vname.2, none, "")
  else
    let vcvjd := validate_cv_jd f.cv_t f.jd_t
    if !vcvjd.1 then ("", vcvjd.2, none, "")
    else
      let vemail := validate_email f.cand_email
      if !vemail.1 then ("", vemail.2, none, "")
      else
        let vphone := validate_phone f.cand_phone
        if !vphone.1 then ("", vphone.2, none, "")
        else
          ("", "✅ All fields valid! Processing...",
            some (prepare_payload f.jd_t f.cv_t f.cand_name f.cand_id f.cand_email
              f.cand_phone f.gh f.li f.port f.fb f.other), "")

/-- The submit wiring `submit_btn.click(validate_and_submit, …).then(
execute_ranking, inputs=[state_payload], …)`: the payload produced by
validation (empty on failure) is fed straight into `execute_ranking`. -/
def submit_flow (f : FormInputs) (rankO : HttpOutcome RankBody)
    (flowO : HttpOutcome (List (String × String))) (s : Store) (now : Nat) :
    (String × String × Option PreparedPayload × String) × ProgressRun :=
  let v := validate_and_submit f
  (v, execute_ranking v.2.2.1 rankO flowO s now)

/-! ## The GDPR pipeline (app_gdpr_compliant.py) -/

/-- The `evaluation` dict returned by the BE Flowise endpoint on success
(read through `.get` with list/0.0 defaults, modelled as plain fields). -/
structure SocialEval where
  profiles_found : List String
  profiles_verified : List String
  social_presence_score : ℚ
  risk_flags : List String
deriving DecidableEq, Repr

/-- The parsed 200 body of `/flowise/evaluate-social`: either
`success: true` with an evaluation, or `success` falsy with an error
message (`result.get("error", "Unknown error")`). -/
inductive BeBody where
  | success (eval : SocialEval)
  | failure (err : String)
deriving DecidableEq, Repr

/-- The dict returned by `evaluate_with_flowise_via_be`: the evaluation
dict, or the failure dict (error message plus empty profile lists and a
zero presence score).  The caller branches on `'error' in flowise_result`,
i.e. on this constructor. -/
inductive SocialEvalResult where
  | eval (e : SocialEval)
  | failure (error : String)
deriving DecidableEq, Repr

/-- app_gdpr_compliant.py `evaluate_with_flowise_via_be`: POSTs the
question to the BE with a 300s timeout.  A 200 `success: true` body
yields the evaluation; a 200 failure body, any other status, a timeout or
a transport exception all yield the failure dict — nothing propagates
past this boundary. -/
def evaluate_with_flowise_via_be (o : HttpOutcome BeBody) : SocialEvalResult :=
  match o with
  | .ok code body =>
      if code = 200 then
        match body with
        | .success e => .eval e
        | .failure err => .failure err
      else .failure ("BE returned " ++ toString code)
  | .timeout => .failure "Read timed out."
  | .exn e => .failure e

/-- The `social_profiles` dict built by `rank_cv_with_social_and_flowise`:
each field is stripped, entries whose stripped value is empty are removed
(`\x7bk: v for k, v in … if v\x7d`), and `other` is appended only when
provided. -/
def gdpr_social_profiles (email phone github_url linkedin_url portfolio_url facebook_url
    other_social : String) : List (String × String) :=
  ([("email", pyStrip email), ("phone", pyStrip phone), ("github", pyStrip github_url),
    ("linkedin", pyStrip linkedin_url), ("portfolio", pyStrip portfolio_url),
    ("facebook", pyStrip facebook_url)].filter (fun kv => kv.2 ≠ "")) ++
  (if pyStrip other_social ≠ "" then [("other", pyStrip other_social)] else [])

/-- Left and right brace characters for rendered JSON. -/
def lbrace : String := "\x7b"

/-- See `lbrace`. -/
def rbrace : String := "\x7d"

/-- `json.dumps` of a string-valued dict (indentation elided). -/
def json_dumps (m : List (String × String)) : String :=
  lbrace ++
    String.intercalate ", " (m.map (fun kv => "\"" ++ kv.1 ++ "\": \"" ++ kv.2 ++ "\"")) ++
  rbrace

/-- The Flowise markdown block built on the success branch of STEP 2
(`**🔗 Social Media Evaluation (via Flowise):**` plus the found/verified/
score/flags lines). -/
def formatFlowiseSuccess (e : SocialEval) : String :=
  "**🔗 Social Media Evaluation (via Flowise):**\n" ++
  (if !e.profiles_found.isEmpty then
    "  📌 Profiles Found: " ++ String.intercalate ", " e.profiles_found ++ "\n" else "") ++
  (if !e.profiles_verified.isEmpty then
    "  ✅ Verified: " ++ String.intercalate ", " e.profiles_verified ++ "\n" else "") ++
  "  📊 Social Presence Score: " ++ formatPct1 e.social_presence_score ++ "\n" ++
  (if !e.risk_flags.isEmpty then
    "  ⚠️ Flags: " ++ String.intercalate ", " e.risk_flags ++ "\n" else "")

/-- `format_search_history_display` (db_manager.py): a placeholder when
the history is empty, otherwise the recent-searches markdown (rendering
simplified). -/
def format_search_history_display (s : Store) : String :=
  if (get_search_history s).isEmpty then "No search history yet"
  else "## Recent Searches (Last 5):" ++
    String.intercalate " " ((get_search_history s).map (·.candidate_name))

/-- Everything observable about one `rank_cv_with_social_and_flowise`
call: the returned 6-tuple (first component `None` on every failure
path), the collaborators invoked, the `save_search_result` arguments, and
the store afterwards. -/
structure GdprRun where
  result : Option ℚ × String × String × String × String × String
  scoringCalled : Bool
  flowiseCalled : Bool
  saveCalled : Bool
  savedArgs : Option SaveArgs
  store : Store
deriving Repr

/-- app_gdpr_compliant.py `rank_cv_with_social_and_flowise`:
validate (name/CV/JD strip to non-empty), build the social-profile
mapping, call the ranking API (30s timeout) — a non-200 returns the
ranking-failed tuple, a raised timeout/transport error is caught by the
outer `except` — then call Flowise via the BE iff `evaluate_social` and
the mapping is non-empty, then save (presence score dict as
`flowise_response`) and return the results tuple.  (The `explanation`
markdown is simplified to its flowise tail; claims do not read it.) -/
def rank_cv_with_social_and_flowise (jd_title jd_description cv_text candidate_name email phone
    github_url linkedin_url portfolio_url facebook_url other_social : String)
    (evaluate_social : Bool) (rankO : HttpOutcome RankBody) (flowO : HttpOutcome BeBody)
    (s : Store) (now : Nat) : GdprRun :=
  if pyStrip candidate_name = "" then
    { result := (none, "❌ Candidate name is required", "", "", "", "")
      scoringCalled := false, flowiseCalled := false, saveCalled := false
      savedArgs := none, store := s }
  else if pyStrip cv_text = "" then
    { result := (none, "❌ CV content is required", "", "", "", "")
      scoringCalled := false, flowiseCalled := false, saveCalled := false
      savedArgs := none, store := s }
  else if pyStrip jd_description = "" then
    { result := (none, "❌ Job description is required", "", "", "", "")
      scoringCalled := false, flowiseCalled := false, saveCalled := false
      savedArgs := none, store := s }
  else
    let social_profiles :=
      gdpr_social_profiles email phone github_url linkedin_url portfolio_url facebook_url
        other_social
    match rankO with
    | .ok code b =>
      if code ≠ 200 then
        { result := (none, "❌ Ranking failed: API Error " ++ toString code,
            "Failed to rank CV. Please check the API is running",
            json_dumps social_profiles, "", "")
          scoringCalled := true, flowiseCalled := false, saveCalled := false
          savedArgs := none, store := s }
      else
        let match_score := b.match_score.getD 0
        let recommendation := b.recommendation.getD "No recommendation"
        let flowiseStep : Option SocialEvalResult :=
          if evaluate_social && !social_profiles.isEmpty then
            some (evaluate_with_flowise_via_be flowO)
          else none
        let social_presence_score : ℚ :=
          match flowiseStep with
          | some (.eval e) => e.social_presence_score
          | _ => 0
        let flowise_evaluation : String :=
          match flowiseStep with
          | some (.eval e) => formatFlowiseSuccess e
          | some (.failure err) => "⚠️ Flowise evaluation skipped: " ++ err
          | none => ""
        let args : SaveArgs :=
          { candidate_name := candidate_name
            job_title := jd_title
            match_score := match_score
            recommendation := recommendation
            social_profiles := social_profiles
            flowise_response := some (.presenceScore social_presence_score)
            notes := "Ranked at " ++ toString now }
        let s' := (save_search_result s now args).1
        let explanation :=
          match flowiseStep with
          | some (.eval _) => "explanation\n\n" ++ flowise_evaluation
          | _ => "explanation"
        let social_display :=
          if !social_profiles.isEmpty then json_dumps social_profiles
          else "No social profiles provided"
        { result := (some match_score, recommendation, explanation, social_display,
            flowise_evaluation, format_search_history_display s')
          scoringCalled := true, flowiseCalled := flowiseStep.isSome, saveCalled := true
          savedArgs := some args, store := s' }
    | .timeout =>
        { result := (none, "❌ Error occurred",
            "An error occurred while ranking the CV:\nError: Read timed out.",
            "Error: Read timed out.", "", "")
          scoringCalled := true, flowiseCalled := false, saveCalled := false
          savedArgs := none, store := s }
    | .exn e =>
        { result := (none, "❌ Error occurred",
            "An error occurred while ranking the CV:\nError: " ++ e,
            "Error: " ++ e, "", "")
          scoringCalled := true, flowiseCalled := false, saveCalled := false
          savedArgs := none, store := s }

/-! ## Concrete fixtures used by witnesses and counterexamples -/

/-- A minimal scoring body with `match_score = 0.72` (the §8 scenario). -/
def body72 : RankBody :=
  { jd_title := some "Job Position", match_score := some (72/100)
    recommendation := some "Strong match", sw_recommendation := none
    social_profiles := [] }

/-- Save arguments used in the capacity scenario. -/
def scenArgs (n : String) : SaveArgs :=
  { candidate_name := n, job_title := "Engineer", match_score := 0
    recommendation := "rec", social_profiles := [], flowise_response := none
    notes := "" }

/-- The store after saving records 1..5 at times 1..5 (capacity not yet
exceeded). -/
def store5 : Store :=
  (List.range 5).foldl (fun st i => (save_search_result st (i + 1) (scenArgs (toString i))).1)
    emptyStore

/-- `store5` after a sixth save at time 6. -/
def store6 : Store :=
  (save_search_result store5 6 (scenArgs "five")).1

/-- A prepared payload for Jane Doe with no social links and no contact
fields. -/
def payloadJane : PreparedPayload :=
  prepare_payload "jd text" "cv text" "Jane Doe" "" "" "" "" "" "" "" ""

/-- The GDPR pipeline run for Jane Doe with no social links, social
evaluation requested, and a successful scoring call. -/
def gdprNoLinks : GdprRun :=
  rank_cv_with_social_and_flowise "Engineer" "jd text" "cv text" "Jane Doe" "" "" "" "" "" ""
    "" true (.ok 200 body72) .timeout emptyStore 1

/-- The save arguments produced by `gdprNoLinks`. -/
def janeArgs : SaveArgs :=
  { candidate_name := "Jane Doe", job_title := "Engineer", match_score := 72/100
    recommendation := "Strong match", social_profiles := []
    flowise_response := some (.presenceScore 0), notes := "Ranked at 1" }

/-- The GDPR pipeline run for Jane Doe with a GitHub link, social
evaluation requested, a successful scoring call and a Flowise timeout. -/
def gdprWithLink : GdprRun :=
  rank_cv_with_social_and_flowise "Engineer" "jd text" "cv text" "Jane Doe" "" "" "gh" "" ""
    "" "" true (.ok 200 body72) .timeout emptyStore 1

/-! ## Store lemmas -/

theorem tsKeyLe_of_le (a b : SearchRecord)
    (h : a.id < b.id ∧ a.timestamp ≤ b.timestamp) : tsKeyLe a b := by
  unfold tsKeyLe; omega

theorem filter_not_in_take (l : List SearchRecord) (k : Nat)
    (h : l.Pairwise (fun a b => a.id < b.id)) :
    l.filter (fun x => !((l.take k).map (·.id)).contains x.id) = l.drop k := by
  induction l generalizing k with
  | nil => simp
  | cons a t ih =>
    rw [List.pairwise_cons] at h
    obtain ⟨ha, ht⟩ := h
    cases k with
    | zero => simp
    | succ j =>
      simp only [List.take_succ_cons, List.map_cons, List.drop_succ_cons]
      rw [List.filter_cons]
      have hself : (!((a.id :: (t.take j).map (·.id)).contains a.id)) = false := by
        simp [List.contains_cons]
      rw [hself]
      simp only [Bool.false_eq_true, if_false]
      have hcongr : t.filter (fun x => !((a.id :: (t.take j).map (·.id)).contains x.id)) =
          t.filter (fun x => !((t.take j).map (·.id)).contains x.id) := by
        apply List.filter_congr
        intro x hx
        have : x.id ≠ a.id := by
          have := ha x hx
          omega
        simp [List.contains_cons, this]
      rw [hcongr, ih j ht]

theorem save_appended_pairwise (s : Store) (now : Nat) (a : SaveArgs)
    (hwf : s.WF) (hnow : ∀ r ∈ s.records, r.timestamp ≤ now) :
    (s.records ++ [mkRecord s now a]).Pairwise
      (fun x y => x.id < y.id ∧ x.timestamp ≤ y.timestamp) := by
  rw [List.pairwise_append]
  refine ⟨hwf.1, List.pairwise_singleton _ _, ?_⟩
  intro x hx y hy
  simp only [List.mem_singleton] at hy
  subst hy
  exact ⟨hwf.2 x hx, hnow x hx⟩

theorem save_records_drop (s : Store) (now : Nat) (a : SaveArgs)
    (hwf : s.WF) (hnow : ∀ r ∈ s.records, r.timestamp ≤ now) :
    ((save_search_result s now a).1).records =
      (s.records ++ [mkRecord s now a]).drop (s.records.length + 1 - MAX_RECORDS) := by
  have hpair := save_appended_pairwise s now a hwf hnow
  have hsorted : List.Sorted tsKeyLe (s.records ++ [mkRecord s now a]) :=
    hpair.imp (fun h => tsKeyLe_of_le _ _ h)
  have hids : (s.records ++ [mkRecord s now a]).Pairwise (fun x y => x.id < y.id) :=
    hpair.imp (fun h => h.1)
  unfold save_search_result
  simp only []
  rw [show orderByTimestampAsc (s.records ++ [mkRecord s now a]) =
      s.records ++ [mkRecord s now a] from hsorted.insertionSort_eq]
  by_cases hlen : (s.records ++ [mkRecord s now a]).length > MAX_RECORDS
  · rw [if_pos hlen]
    rw [filter_not_in_take _ _ hids]
    simp [List.length_append]
  · rw [if_neg hlen]
    have : s.records.length + 1 - MAX_RECORDS = 0 := by
      simp only [List.length_append, List.length_singleton] at hlen
      omega
    rw [this, List.drop_zero]

theorem save_preserves_wf (s : Store) (now : Nat) (a : SaveArgs)
    (hwf : s.WF) (hnow : ∀ r ∈ s.records, r.timestamp ≤ now) :
    ((save_search_result s now a).1).WF := by
  have hdrop := save_records_drop s now a hwf hnow
  have hpair := save_appended_pairwise s now a hwf hnow
  constructor
  · rw [hdrop]
    exact hpair.sublist (List.drop_sublist _ _)
  · intro r hr
    rw [hdrop] at hr
    have hr2 := (List.drop_sublist _ _).subset hr
    have hnext : ((save_search_result s now a).1).nextId = s.nextId + 1 := rfl
    rw [hnext]
    rcases List.mem_append.mp hr2 with h | h
    · exact Nat.lt_succ_of_lt (hwf.2 r h)
    · simp only [List.mem_singleton] at h
      subst h
      exact Nat.lt_succ_self _

/-! ## Claim C2 -/

/-- **C2** (confirmed): on a well-formed store whose timestamps do not
exceed the save-time clock, `save_search_result` leaves the store
well-formed, with `min (count + 1) MAX_RECORDS` rows, and the surviving
rows are exactly the most-recently-inserted suffix of the old rows plus
the new row — i.e. if the count exceeded `MAX_RECORDS` exactly the
oldest-by-(timestamp, id) rows were deleted until the count is
`MAX_RECORDS` again. -/
theorem c2_capacity_invariant (s : Store) (now : Nat) (a : SaveArgs)
    (hwf : s.WF) (hnow : ∀ r ∈ s.records, r.timestamp ≤ now) :
    ((save_search_result s now a).1).WF ∧
    ((save_search_result s now a).1).records.length =
      min (s.records.length + 1) MAX_RECORDS ∧
    ((save_search_result s now a).1).records =
      (s.records ++ [mkRecord s now a]).drop (s.records.length + 1 - MAX_RECORDS) := by
  refine ⟨save_preserves_wf s now a hwf hnow, ?_, save_records_drop s now a hwf hnow⟩
  rw [save_records_drop s now a hwf hnow, List.length_drop]
  simp only [List.length_append, List.length_singleton]
  omega

/-- Witness for C2: saving a sixth record into the full five-record store
`store5` satisfies the hypotheses and evicts exactly the oldest row. -/
theorem c2_capacity_invariant_witness :
    store5.WF ∧ (∀ r ∈ store5.records, r.timestamp ≤ 6) ∧
    ((save_search_result store5 6 (scenArgs "five")).1).records =
      (store5.records ++ [mkRecord store5 6 (scenArgs "five")]).drop
        (store5.records.length + 1 - MAX_RECORDS) :=
  ⟨by decide, by decide,
    (c2_capacity_invariant store5 6 (scenArgs "five") (by decide) (by decide)).2.2⟩

/-! ## Claim C9 -/

/-- **C9** (confirmed): `get_search_history` returns at most
`MAX_RECORDS` rows ordered most-recent first, and in the §8 scenario —
five rows with ids 1..5 already stored, then a sixth saved — id 1 is
evicted and the history lists ids `[6, 5, 4, 3, 2]` in that order. -/
theorem c9_list_most_recent_first :
    (∀ s : Store, (get_search_history s).length ≤ MAX_RECORDS ∧
      (get_search_history s).Pairwise (fun a b => b.timestamp ≤ a.timestamp)) ∧
    store5.records.map (·.id) = [1, 2, 3, 4, 5] ∧
    store6.records.map (·.id) = [2, 3, 4, 5, 6] ∧
    (get_search_history store6).map (·.id) = [6, 5, 4, 3, 2] := by
  refine ⟨fun s => ⟨List.length_take_le _ _, ?_⟩, by decide, by decide, by decide⟩
  have hs : List.Sorted tsKeyLe (s.records.insertionSort tsKeyLe) :=
    List.sorted_insertionSort tsKeyLe s.records
  have hrev : ((s.records.insertionSort tsKeyLe).reverse).Pairwise (fun a b => tsKeyLe b a) :=
    List.pairwise_reverse.mpr hs
  have htake : ((get_search_history s)).Pairwise (fun a b => tsKeyLe b a) :=
    hrev.sublist (List.take_sublist _ _)
  exact htake.imp (fun h => by unfold tsKeyLe at h; omega)

/-! ## Claim C6 -/

/-- **C6** (counterexample): the claim says `delete` returns `false` for
an id that does not exist; but `delete_search_record` on the empty store
with id 42 returns `true`. -/
theorem c6_counterexample :
    42 ∉ emptyStore.records.map (·.id) ∧
    (delete_search_record emptyStore 42).2 ≠ false := by
  decide

/-- **C6** (corrected): deleting a nonexistent id is not an error — it
returns `true` (the code returns `True` on every exception-free path) and
leaves the store, hence its record count and every stored record,
unchanged. -/
theorem c6_delete_nonexistent_noop (s : Store) (record_id : Nat)
    (h : record_id ∉ s.records.map (·.id)) :
    delete_search_record s record_id = (s, true) := by
  unfold delete_search_record
  have hfix : s.records.filter (fun r => r.id ≠ record_id) = s.records := by
    rw [List.filter_eq_self]
    intro r hr
    simp only [ne_eq, decide_eq_true_eq]
    intro heq
    exact h (heq ▸ List.mem_map_of_mem (·.id) hr)
  rw [hfix]

/-- Witness for C6: deleting id 42 from the empty store. -/
theorem c6_delete_nonexistent_noop_witness :
    42 ∉ emptyStore.records.map (·.id) ∧
    delete_search_record emptyStore 42 = (emptyStore, true) :=
  ⟨by decide, c6_delete_nonexistent_noop emptyStore 42 (by decide)⟩

/-! ## Claim C10 -/

/-- **C10** (confirmed): `validate_phone` accepts exactly the empty
string (optional field) and the strings that, after removing all
whitespace, hyphens, parentheses and plus signs, leave a non-empty
all-decimal-digit string of length at least 7. -/
theorem c10_validate_phone_iff (phone : String) :
    (validate_phone phone).1 = true ↔
      phone = "" ∨ (cleanPhone phone ≠ [] ∧ (∀ c ∈ cleanPhone phone, c.isDigit) ∧
        7 ≤ (cleanPhone phone).length) := by
  have hform : (validate_phone phone).1 =
      ((phone == "") ||
        (decide (7 ≤ (cleanPhone phone).length) && pyIsDigit (cleanPhone phone))) := by
    unfold validate_phone
    split_ifs with h1 h2 <;> simp_all
  rw [hform]
  simp only [Bool.or_eq_true, beq_iff_eq, Bool.and_eq_true, decide_eq_true_eq, pyIsDigit,
    Bool.not_eq_true', List.all_eq_true, List.isEmpty_eq_false]
  constructor
  · rintro (h | ⟨hlen, hne, hall⟩)
    · exact Or.inl h
    · exact Or.inr ⟨hne, hall, hlen⟩
  · rintro (h | ⟨hne, hall, hlen⟩)
    · exact Or.inl h
    · exact Or.inr ⟨hlen, hne, hall⟩

/-! ## Claim C8 -/

/-- **C8** (confirmed): the presence signal attached by `prepare_payload`
equals the number of provided social-link fields divided by 4 (the
"Max 4 link types" constant of the source), clamped to `[0, 1]`, and in
particular always lies in `[0, 1]`. -/
theorem c8_presence_score_clamped
    (jd_text cv_text candidate_name candidate_id candidate_email candidate_phone
      github_url linkedin_url portfolio_url facebook_url other_social : String) :
    spLookup ((prepare_payload jd_text cv_text candidate_name candidate_id candidate_email
        candidate_phone github_url linkedin_url portfolio_url facebook_url
        other_social).social_media_profiles) "presence_score" =
      some (.num (min
        ((numLinks github_url linkedin_url portfolio_url facebook_url other_social : ℚ) / 4)
        1)) ∧
    (0 : ℚ) ≤ min
      ((numLinks github_url linkedin_url portfolio_url facebook_url other_social : ℚ) / 4) 1 ∧
    min ((numLinks github_url linkedin_url portfolio_url facebook_url other_social : ℚ) / 4) 1
      ≤ 1 := by
  refine ⟨rfl, le_min (by positivity) (by norm_num), min_le_right _ _⟩

/-! ## Claim C5 -/

/-- **C5** (counterexample): for a request whose GitHub field is empty,
the mapping built by `prepare_payload` still contains a `"github"` entry,
with an empty-list value — absence is not represented by key omission. -/
theorem c5_counterexample :
    ("github", SPVal.links []) ∈
      (prepare_payload "jd" "cv" "Jane Doe" "" "" "" "" "" "" "" "").social_media_profiles ∧
    spLookup (prepare_payload "jd" "cv" "Jane Doe" "" "" "" "" "" "" ""
      "").social_media_profiles "github" = some (.links []) := by
  decide

/-- **C5** (corrected): the GDPR pipeline's mapping never contains an
empty value and represents absent providers by key omission; the
progress pipeline's `prepare_payload`, by contrast, always keeps every
provider key and represents an empty field by an empty list — it never
forwards an empty-string URL. -/
theorem c5_social_profiles_no_empty_values
    (email phone github_url linkedin_url portfolio_url facebook_url other_social : String) :
    (∀ kv ∈ gdpr_social_profiles email phone github_url linkedin_url portfolio_url
        facebook_url other_social, kv.2 ≠ "") ∧
    (("github", pyStrip github_url) ∈ gdpr_social_profiles email phone github_url linkedin_url
        portfolio_url facebook_url other_social ↔ pyStrip github_url ≠ "") ∧
    (("facebook", pyStrip facebook_url) ∈ gdpr_social_profiles email phone github_url linkedin_url
        portfolio_url facebook_url other_social ↔ pyStrip facebook_url ≠ "") ∧
    (("other", pyStrip other_social) ∈ gdpr_social_profiles email phone github_url linkedin_url
        portfolio_url facebook_url other_social ↔ pyStrip other_social ≠ "") ∧
    (spLinks (build_social_profiles github_url linkedin_url portfolio_url facebook_url
        other_social) "github" = if github_url ≠ "" then [github_url] else []) ∧
    (spLinks (build_social_profiles github_url linkedin_url portfolio_url facebook_url
        other_social) "linkedin" = if linkedin_url ≠ "" then [linkedin_url] else []) ∧
    (spLinks (build_social_profiles github_url linkedin_url portfolio_url facebook_url
        other_social) "portfolio" = if portfolio_url ≠ "" then [portfolio_url] else []) ∧
    (spLinks (build_social_profiles github_url linkedin_url portfolio_url facebook_url
        other_social) "facebook" = if facebook_url ≠ "" then [facebook_url] else []) ∧
    (spLinks (build_social_profiles github_url linkedin_url portfolio_url facebook_url
        other_social) "other" = if other_social ≠ "" then [other_social] else []) ∧
    (∀ k ∈ (["github", "linkedin", "portfolio", "facebook", "other"] : List String),
      "" ∉ spLinks (build_social_profiles github_url linkedin_url portfolio_url
        facebook_url other_social) k) := by
  refine ⟨?_, ?_, ?_, ?_, rfl, rfl, rfl, rfl, rfl, ?_⟩
  · intro kv hkv
    unfold gdpr_social_profiles at hkv
    rcases List.mem_append.mp hkv with h | h
    · exact of_decide_eq_true (List.mem_filter.mp h).2
    · split_ifs at h with ho
      · simp only [List.mem_singleton] at h
        subst h
        exact ho
      · simp at h
  · simp [gdpr_social_profiles, List.mem_filter]
  · simp [gdpr_social_profiles, List.mem_filter]
  · simp [gdpr_social_profiles, List.mem_filter]
  · intro k hk
    fin_cases hk <;>
      · simp only [spLinks, spLookup, build_social_profiles, List.find?]
        split_ifs <;> simp_all [eq_comm]

/-- Witness for C5: the provided GitHub URL `"g"` appears in the GDPR
mapping and is non-empty. -/
theorem c5_social_profiles_no_empty_values_witness :
    ("github", "g") ∈ gdpr_social_profiles "" "" "g" "" "" "" "" ∧
    ("github", "g").2 ≠ "" :=
  ⟨by decide,
    (c5_social_profiles_no_empty_values "" "" "g" "" "" "" "").1 ("github", "g") (by decide)⟩

/-! ## Claim C1 -/

/-- **C1** (code bug): with a valid payload and the scoring API answering
HTTP 500, `execute_ranking` still invokes `save_search_result` — a
history record for Jane Doe with `match_score = 0` is written even though
scoring failed.  The GDPR pipeline on the same failure performs no save
and leaves the store untouched, matching the specified behaviour. -/
theorem c1_scoring_failure_still_saves :
    (execute_ranking (some payloadJane) (.ok 500 body72) .timeout emptyStore 1).response =
      some (.errorDict "API Error: 500" (some 500)) ∧
    (execute_ranking (some payloadJane) (.ok 500 body72) .timeout emptyStore 1).saveCalled =
      true ∧
    (execute_ranking (some payloadJane) (.ok 500 body72) .timeout
        emptyStore 1).store.records.map (fun r => (r.candidate_name, r.match_score)) =
      [("Jane Doe", 0)] ∧
    (rank_cv_with_social_and_flowise "Engineer" "jd text" "cv text" "Jane Doe" "" "" "" "" ""
      "" "" true (.ok 500 body72) .timeout emptyStore 1).saveCalled = false ∧
    (rank_cv_with_social_and_flowise "Engineer" "jd text" "cv text" "Jane Doe" "" "" "" "" ""
      "" "" true (.ok 500 body72) .timeout emptyStore 1).store = emptyStore := by
  decide

/-! ## Claim C7 -/

/-- **C7** (confirmed): when the candidate name strips to fewer than 2
characters, the submit flow reports the name-validation rejection, passes
an empty payload on, and neither the scoring API, nor Flowise, nor the
history store is touched. -/
theorem c7_short_name_rejected (f : FormInputs) (rankO : HttpOutcome RankBody)
    (flowO : HttpOutcome (List (String × String))) (s : Store) (now : Nat)
    (h : (pyStrip f.cand_name).length < 2) :
    (submit_flow f rankO flowO s now).1.2.1 =
      "Candidate name is required (at least 2 characters)" ∧
    (submit_flow f rankO flowO s now).1.2.2.1 = none ∧
    (submit_flow f rankO flowO s now).2.scoringCalled = false ∧
    (submit_flow f rankO flowO s now).2.flowiseCalled = false ∧
    (submit_flow f rankO flowO s now).2.saveCalled = false ∧
    (submit_flow f rankO flowO s now).2.store = s := by
  have hv : validate_candidate_name f.cand_name =
      (false, "Candidate name is required (at least 2 characters)") := by
    unfold validate_candidate_name
    rw [if_pos]
    simp [h]
  simp [submit_flow, validate_and_submit, hv, execute_ranking]

/-- Witness for C7: a whitespace-only candidate name. -/
theorem c7_short_name_rejected_witness :
    (pyStrip "   ").length < 2 ∧
    (submit_flow ⟨"   ", "", "", "", "jd", "cv", "", "", "", "", ""⟩ .timeout .timeout
      emptyStore 1).2.saveCalled = false :=
  ⟨by decide,
    (c7_short_name_rejected ⟨"   ", "", "", "", "jd", "cv", "", "", "", "", ""⟩ .timeout
      .timeout emptyStore 1 (by decide)).2.2.2.2.1⟩

/-! ## Claim C4 -/

/-- **C4** (counterexample): for Jane Doe with no social links (and
`evaluate_social = true`, scoring succeeded), the GDPR pipeline does skip
the social step — but the persisted record's social-evaluation column is
the serialized `\x7b"presence_score": 0\x7d`, not NULL; and the progress
pipeline calls Flowise on the same no-links request, so the invocation is
not conditioned on a non-empty profile mapping. -/
theorem c4_counterexample :
    gdprNoLinks.flowiseCalled = false ∧
    gdprNoLinks.savedArgs.map (·.flowise_response) = some (some (.presenceScore 0)) ∧
    gdprNoLinks.store.records.map (·.flowise_response) = [some (.presenceScore 0)] ∧
    (execute_ranking (some payloadJane) (.ok 200 body72) .timeout emptyStore 1).flowiseCalled =
      true := by
  decide

/-- **C4** (corrected): in the GDPR pipeline the social step runs iff
validation passed, scoring returned HTTP 200, `evaluate_social` is true
and the social-profile mapping is non-empty — and every record it
persists carries the presence-score dict (never NULL) as its social
evaluation.  In the progress pipeline the social step runs iff the
scoring response has no error and the candidate name is non-empty,
regardless of the profile mapping. -/
theorem c4_social_step_gating (jd_title jd_description cv_text candidate_name email phone
    github_url linkedin_url portfolio_url facebook_url other_social : String)
    (evaluate_social : Bool) (rankO : HttpOutcome RankBody) (flowO : HttpOutcome BeBody)
    (s : Store) (now : Nat) :
    ((rank_cv_with_social_and_flowise jd_title jd_description cv_text candidate_name email
        phone github_url linkedin_url portfolio_url facebook_url other_social evaluate_social
        rankO flowO s now).flowiseCalled = true ↔
      (pyStrip candidate_name ≠ "" ∧ pyStrip cv_text ≠ "" ∧ pyStrip jd_description ≠ "" ∧
        (∃ b, rankO = .ok 200 b) ∧ evaluate_social = true ∧
        gdpr_social_profiles email phone github_url linkedin_url portfolio_url facebook_url
          other_social ≠ [])) ∧
    (∀ args, (rank_cv_with_social_and_flowise jd_title jd_description cv_text candidate_name
        email phone github_url linkedin_url portfolio_url facebook_url other_social
        evaluate_social rankO flowO s now).savedArgs = some args →
      ∃ sc, args.flowise_response = some (.presenceScore sc) ∧
        storedFlowise args.flowise_response = some (.presenceScore sc)) ∧
    (∀ (p : PreparedPayload) (rankO2 : HttpOutcome RankBody)
        (flowO2 : HttpOutcome (List (String × String))),
      (execute_ranking (some p) rankO2 flowO2 s now).flowiseCalled =
        (!(call_ranking_api rankO2).hasError && p.candidate_name ≠ "")) := by
  refine ⟨?_, ?_, ?_⟩
  · unfold rank_cv_with_social_and_flowise
    by_cases h1 : pyStrip candidate_name = ""
    · simp [h1]
    · by_cases h2 : pyStrip cv_text = ""
      · simp [h1, h2]
      · by_cases h3 : pyStrip jd_description = ""
        · simp [h1, h2, h3]
        · rcases rankO with ⟨code, b⟩ | _ | e
          · by_cases hc : code = 200
            · subst hc
              by_cases hcond : (evaluate_social && !(gdpr_social_profiles email phone
                  github_url linkedin_url portfolio_url facebook_url
                  other_social).isEmpty) = true
              · simp_all [List.isEmpty_eq_false]
              · simp_all [List.isEmpty_eq_false]
            · simp [h1, h2, h3, hc]
          · simp [h1, h2, h3]
          · simp [h1, h2, h3]
  · intro args hargs
    unfold rank_cv_with_social_and_flowise at hargs
    by_cases h1 : pyStrip candidate_name = ""
    · simp [h1] at hargs
    · by_cases h2 : pyStrip cv_text = ""
      · simp [h1, h2] at hargs
      · by_cases h3 : pyStrip jd_description = ""
        · simp [h1, h2, h3] at hargs
        · rcases rankO with ⟨code, b⟩ | _ | e
          · by_cases hc : code = 200
            · subst hc
              simp only [h1, h2, h3, if_neg, not_false_eq_true, ne_eq, not_true_eq_false,
                Bool.false_eq_true, reduceIte, Option.some.injEq] at hargs
              subst hargs
              exact ⟨_, rfl, rfl⟩
            · simp [h1, h2, h3, hc] at hargs
          · simp [h1, h2, h3] at hargs
          · simp [h1, h2, h3] at hargs
  · intro p rankO2 flowO2
    simp only [execute_ranking]
    split_ifs with hsplit
    · simp only [Bool.and_eq_true, Bool.not_eq_true', decide_eq_true_eq] at hsplit
      simp [hsplit.1, hsplit.2]
    · simp only [Bool.not_eq_true] at hsplit
      simp only [Option.isSome_none]
      exact hsplit.symm

/-- Witness for C4: the no-links Jane Doe run saves `janeArgs`, whose
social-evaluation column is the presence-score dict. -/
theorem c4_social_step_gating_witness :
    gdprNoLinks.savedArgs = some janeArgs ∧
    (∃ sc, janeArgs.flowise_response = some (.presenceScore sc) ∧
      storedFlowise janeArgs.flowise_response = some (.presenceScore sc)) :=
  ⟨rfl,
    (c4_social_step_gating "Engineer" "jd text" "cv text" "Jane Doe" "" "" "" "" "" "" ""
      true (.ok 200 body72) .timeout emptyStore 1).2.1 janeArgs rfl⟩

/-! ## Claim C3 -/

/-- **C3** (confirmed): the social-evaluation clients are total at their
boundary — a timeout, a non-200 status, or a transport exception becomes
the failure variant / an error dict, never an exception — and a pipeline
whose scoring succeeded still completes when the social step fails: the
progress pipeline keeps the scoring body in its response and still saves,
and the GDPR pipeline returns the scoring match score with the social
panel showing the skipped-with-error message. -/
theorem c3_social_failure_nonfatal :
    (∀ m, evaluate_with_flowise_via_be (.exn m) = .failure m) ∧
    evaluate_with_flowise_via_be .timeout = .failure "Read timed out." ∧
    (∀ (code : Nat) (b : BeBody), code ≠ 200 →
      evaluate_with_flowise_via_be (.ok code b) =
        .failure ("BE returned " ++ toString code)) ∧
    (∀ (name em ph gh li po fb : String) (ms : ℚ),
      (call_flowise_evaluation name em ph gh li po fb ms .timeout).hasErrorKey = true ∧
      (∀ code b2, code ≠ 200 →
        (call_flowise_evaluation name em ph gh li po fb ms (.ok code b2)).hasErrorKey =
          true) ∧
      (∀ m, (call_flowise_evaluation name em ph gh li po fb ms (.exn m)).hasErrorKey =
        true)) ∧
    (∀ (p : PreparedPayload) (b : RankBody) (flowO : HttpOutcome (List (String × String)))
        (s : Store) (now : Nat),
      (execute_ranking (some p) (.ok 200 b) flowO s now).response = some (.body b) ∧
      (execute_ranking (some p) (.ok 200 b) flowO s now).saveCalled = true) ∧
    (∀ (jd_title jd_description cv_text candidate_name email phone github_url linkedin_url
        portfolio_url facebook_url other_social err : String) (b : RankBody)
        (flowO : HttpOutcome BeBody) (s : Store) (now : Nat),
      pyStrip candidate_name ≠ "" → pyStrip cv_text ≠ "" → pyStrip jd_description ≠ "" →
      gdpr_social_profiles email phone github_url linkedin_url portfolio_url facebook_url
        other_social ≠ [] →
      evaluate_with_flowise_via_be flowO = .failure err →
      (rank_cv_with_social_and_flowise jd_title jd_description cv_text candidate_name email
          phone github_url linkedin_url portfolio_url facebook_url other_social true
          (.ok 200 b) flowO s now).result.1 = some (b.match_score.getD 0) ∧
      (rank_cv_with_social_and_flowise jd_title jd_description cv_text candidate_name email
          phone github_url linkedin_url portfolio_url facebook_url other_social true
          (.ok 200 b) flowO s now).result.2.2.2.2.1 =
        "⚠️ Flowise evaluation skipped: " ++ err ∧
      (rank_cv_with_social_and_flowise jd_title jd_description cv_text candidate_name email
          phone github_url linkedin_url portfolio_url facebook_url other_social true
          (.ok 200 b) flowO s now).saveCalled = true) := by
  refine ⟨fun m => rfl, rfl, ?_, ?_, ?_, ?_⟩
  · intro code b h
    simp [evaluate_with_flowise_via_be, h]
  · intro name em ph gh li po fb ms
    refine ⟨?_, ?_, ?_⟩
    · unfold call_flowise_evaluation
      split_ifs <;> rfl
    · intro code b2 hcode
      unfold call_flowise_evaluation
      split_ifs with hn
      · rfl
      · simp [hcode, FlowiseClientResult.hasErrorKey]
    · intro m
      unfold call_flowise_evaluation
      split_ifs <;> rfl
  · intro p b flowO s now
    constructor <;> simp [execute_ranking, call_ranking_api]
  · intro jd_title jd_description cv_text candidate_name email phone github_url linkedin_url
      portfolio_url facebook_url other_social err b flowO s now h1 h2 h3 hp hfl
    have hie : (gdpr_social_profiles email phone github_url linkedin_url portfolio_url
        facebook_url other_social).isEmpty = false := by
      simp [List.isEmpty_eq_false, hp]
    refine ⟨?_, ?_, ?_⟩ <;>
      simp [rank_cv_with_social_and_flowise, h1, h2, h3, hie, hfl]

/-- Witness for C3: Jane Doe with a GitHub link, scoring at 0.72 and a
Flowise timeout — the run completes with the score intact. -/
theorem c3_social_failure_nonfatal_witness :
    (pyStrip "Jane Doe" ≠ "" ∧ pyStrip "cv text" ≠ "" ∧ pyStrip "jd text" ≠ "" ∧
      gdpr_social_profiles "" "" "gh" "" "" "" "" ≠ [] ∧
      evaluate_with_flowise_via_be (.timeout : HttpOutcome BeBody) =
        .failure "Read timed out.") ∧
    (gdprWithLink.result.1 = some (body72.match_score.getD 0) ∧
      gdprWithLink.result.2.2.2.2.1 = "⚠️ Flowise evaluation skipped: Read timed out." ∧
      gdprWithLink.saveCalled = true) :=
  ⟨⟨by decide, by decide, by decide, by decide, rfl⟩, by
    have h := c3_social_failure_nonfatal.2.2.2.2.2 "Engineer" "jd text" "cv text" "Jane Doe"
      "" "" "gh" "" "" "" "" "Read timed out." body72 .timeout emptyStore 1 (by decide)
      (by decide) (by decide) (by decide) rfl
    exact ⟨h.1, h.2.1, h.2.2⟩⟩

end CvRanker
